import Mathlib

/-!
Shallow embedding of the `iamge-backend` triage engine
(`src/lib.rs`, `src/control_flow.rs`, `src/filesystem.rs`).

A path (`std::path::PathBuf`) is modelled as its list of components.
The filesystem that the default `Filesystem` adapter acts on is modelled as
the multiset of paths of the files that currently exist.  Rust methods that
mutate `self` and return `Result<(), Error>` are modelled as functions from
an engine-plus-filesystem `World` to a `RunResult` carrying the post-state;
the `usize` subtraction `self.current_file_index -= 1` in `Backend::undo`,
which panics on underflow in debug builds (and wraps in release builds), is
modelled as the distinguished outcome `RunResult.panic`.

`load_folders_and_files`, `load_external_folders` and `add_folder` delegate
their I/O to the injected `FilesystemIO` trait object; their embeddings take
the port's response as an explicit oracle argument.
-/

/-- A filesystem path, as its list of components. -/
abbrev FsPath := List String

/-- Error kinds used by the engine (`std::io::ErrorKind`). -/
inductive Err where
  | notFound
  | alreadyExists
  | invalidData
  | unexpectedEof
  deriving DecidableEq, Repr

/-- `Path::file_name`: the final component of a path, if any. -/
def fileNameOf (p : FsPath) : Option String := p.getLast?

/-- A reversible command (`control_flow.rs`): the `Controllable` trait with
its two implementors `Move` and `Skip`.  A `Move` stores, in the source's
field order, `current_file_location` (the pre-move path of the file) and
`previous_file_location` (the destination it was moved to). -/
inductive Cmd where
  | move (current_file_location previous_file_location : FsPath)
  | skip
  deriving DecidableEq, Repr

/-- The engine state (`struct Backend` in `src/lib.rs`), without the
injected `filesystem_helper` trait object, which is modelled separately. -/
structure Backend where
  files : List FsPath
  folders : List FsPath
  pwd : String
  current_file_index : Nat
  undo_stack : List Cmd
  redo_stack : List Cmd
  end_of_files : Bool
  deriving DecidableEq, Repr

/-- `Backend::new`. -/
def Backend.new : Backend :=
  { files := [], folders := [], pwd := "", current_file_index := 0,
    undo_stack := [], redo_stack := [], end_of_files := false }

/-- The modelled filesystem: the multiset of paths of existing files. -/
abbrev Fs := Multiset FsPath

/-- The engine together with the filesystem it acts on. -/
structure World where
  backend : Backend
  fs : Fs
  deriving DecidableEq

/-- Outcome of one engine operation: success with the new world, an error
with the world as the method left it, or a panic (usize underflow). -/
inductive RunResult where
  | ok (w : World)
  | err (e : Err) (w : World)
  | panic
  deriving DecidableEq

/-- `Filesystem::move_file` (`src/filesystem.rs`): fails with
`AlreadyExists` when the destination exists, and with `NotFound` when the
source does not (`fs::rename` on a missing source); otherwise relocates. -/
def fsMoveFile (fs : Fs) (from_file to_file : FsPath) : Except Err Fs :=
  if to_file ∈ fs then .error .alreadyExists
  else if from_file ∈ fs then .ok (to_file ::ₘ fs.erase from_file)
  else .error .notFound

/-- `Filesystem::delete_file`: `fs::remove_file`, `NotFound` if missing. -/
def fsDeleteFile (fs : Fs) (file : FsPath) : Except Err Fs :=
  if file ∈ fs then .ok (fs.erase file) else .error .notFound

/-- `Controllable::undo` for each command.  `Move::undo` renames
`previous_file_location` back to `current_file_location`; `Skip::undo`
does nothing. -/
def cmdUndo (c : Cmd) (fs : Fs) : Except Err Fs :=
  match c with
  | .move current_file_location previous_file_location =>
      fsMoveFile fs previous_file_location current_file_location
  | .skip => .ok fs

/-- `Controllable::redo` for each command.  `Move::redo` renames
`current_file_location` to `previous_file_location`; `Skip::redo` does
nothing. -/
def cmdRedo (c : Cmd) (fs : Fs) : Except Err Fs :=
  match c with
  | .move current_file_location previous_file_location =>
      fsMoveFile fs current_file_location previous_file_location
  | .skip => .ok fs

/-- `Backend::get_current_file`. -/
def getCurrentFile (b : Backend) : Option FsPath :=
  if b.current_file_index ≥ b.files.length then none
  else b.files.get? b.current_file_index

/-- `Backend::build_destination`: pushes the source file's name onto the
destination folder; `InvalidData` when the source has no file name. -/
def buildDestination (to_folder : FsPath) (from_file : FsPath) :
    Except Err FsPath :=
  match fileNameOf from_file with
  | none => .error .invalidData
  | some file_name => .ok (to_folder ++ [file_name])

/-- `Backend::is_end_of_files`: when `file_index + 1 >= file_count` it sets
the `end_of_files` flag and fails with `UnexpectedEof`. -/
def isEndOfFiles (b : Backend) (file_index file_count : Nat) :
    Except Err Unit × Backend :=
  if file_index + 1 ≥ file_count then
    (.error .unexpectedEof, { b with end_of_files := true })
  else (.ok (), b)

/-- `Backend::increment`: checks the boundary, then advances the cursor. -/
def increment (b : Backend) : Except Err Unit × Backend :=
  match isEndOfFiles b b.current_file_index b.files.length with
  | (.error e, b1) => (.error e, b1)
  | (.ok _, b1) =>
      (.ok (), { b1 with current_file_index := b1.current_file_index + 1 })

/-- `Backend::skip`: increments, then pushes a `Skip` command. -/
def skip (w : World) : RunResult :=
  match increment w.backend with
  | (.error e, b1) => .err e { w with backend := b1 }
  | (.ok _, b1) =>
      .ok { w with backend := { b1 with undo_stack := .skip :: b1.undo_stack } }

/-- `Backend::delete_file`: removes the current file (if any) through the
storage port; on success pushes a `Skip` command and leaves the cursor
where it is. -/
def deleteFile (w : World) : RunResult :=
  match getCurrentFile w.backend with
  | none => .ok w
  | some file =>
      match fsDeleteFile w.fs file with
      | .error e => .err e w
      | .ok fs1 =>
          .ok { backend :=
                  { w.backend with undo_stack := .skip :: w.backend.undo_stack },
                fs := fs1 }

/-- `Backend::move_file`: `NotFound` on an empty file list; otherwise
builds the destination, renames through the storage port, pushes a
`Move (from_file, destination)` command and increments the cursor. -/
def moveFile (w : World) (to_folder : FsPath) : RunResult :=
  if w.backend.files = [] then .err .notFound w
  else
    match getCurrentFile w.backend with
    | none => .ok w
    | some from_file =>
        match buildDestination to_folder from_file with
        | .error e => .err e w
        | .ok destination =>
            match fsMoveFile w.fs from_file destination with
            | .error e => .err e w
            | .ok fs1 =>
                let b1 := { w.backend with
                  undo_stack := .move from_file destination :: w.backend.undo_stack }
                match increment b1 with
                | (.error e, b2) => .err e { backend := b2, fs := fs1 }
                | (.ok _, b2) => .ok { backend := b2, fs := fs1 }

/-- `Backend::undo`: pops the undo stack (no-op success when empty), runs
the command's `undo()`, pushes the command onto the redo stack, then either
clears the `end_of_files` flag or decrements the cursor.  The decrement is
the unguarded usize subtraction; at cursor 0 it is modelled as a panic. -/
def undo (w : World) : RunResult :=
  match w.backend.undo_stack with
  | [] => .ok w
  | item :: rest =>
      let result := cmdUndo item w.fs
      let fs1 := match result with | .ok f => f | .error _ => w.fs
      let b1 := { w.backend with
        undo_stack := rest, redo_stack := item :: w.backend.redo_stack }
      if b1.end_of_files then
        let b2 := { b1 with end_of_files := false }
        match result with
        | .ok _ => .ok { backend := b2, fs := fs1 }
        | .error e => .err e { backend := b2, fs := fs1 }
      else
        if b1.current_file_index = 0 then .panic
        else
          let b2 := { b1 with current_file_index := b1.current_file_index - 1 }
          match result with
          | .ok _ => .ok { backend := b2, fs := fs1 }
          | .error e => .err e { backend := b2, fs := fs1 }

/-- `Backend::redo`: pops the redo stack (no-op success when empty), runs
the command's `redo()`, pushes the command onto the undo stack, then
increments; an increment failure is propagated (and shadows the command's
own result). -/
def redo (w : World) : RunResult :=
  match w.backend.redo_stack with
  | [] => .ok w
  | item :: rest =>
      let result := cmdRedo item w.fs
      let fs1 := match result with | .ok f => f | .error _ => w.fs
      let b1 := { w.backend with
        redo_stack := rest, undo_stack := item :: w.backend.undo_stack }
      match increment b1 with
      | (.error e, b2) => .err e { backend := b2, fs := fs1 }
      | (.ok _, b2) =>
          match result with
          | .ok _ => .ok { backend := b2, fs := fs1 }
          | .error e => .err e { backend := b2, fs := fs1 }

/-- `Backend::load_folders_and_files`: the storage port's answer for the
directory is passed as the oracle argument `response`.  On success the
lists are replaced, `pwd` set, the cursor reset and both stacks cleared;
the `end_of_files` flag is (notably) not reset. -/
def loadFoldersAndFiles (w : World) (directory : String)
    (response : Except Err (List FsPath × List FsPath)) : RunResult :=
  match response with
  | .error e => .err e w
  | .ok (folders, files) =>
      .ok { w with backend := { w.backend with
              folders := folders, files := files, pwd := directory,
              current_file_index := 0, undo_stack := [], redo_stack := [] } }

/-- `Backend::load_external_folders`: replaces only the folder list with
the first component of the storage port's answer. -/
def loadExternalFolders (w : World)
    (response : Except Err (List FsPath × List FsPath)) : RunResult :=
  match response with
  | .error e => .err e w
  | .ok (folders, _) =>
      .ok { w with backend := { w.backend with folders := folders } }

/-- `Backend::add_folder`: appends the storage port's resolved folder. -/
def addFolder (w : World) (response : Except Err FsPath) : RunResult :=
  match response with
  | .error e => .err e w
  | .ok new_folder =>
      .ok { w with backend := { w.backend with
              folders := w.backend.folders ++ [new_folder] } }

/-- `Backend::clear_folders`. -/
def clearFolders (w : World) : World :=
  { w with backend := { w.backend with folders := [] } }

/-! ### Concrete worlds used by the counterexamples and bug demonstrations -/

/-- A three-file session: files `a`, `b`, `c` loaded, cursor at 0. -/
def demoW3 : World :=
  { backend := { Backend.new with files := [["a"], ["b"], ["c"]] },
    fs := {["a"], ["b"], ["c"]} }

/-- A two-file session: files `a`, `b` loaded, cursor at 0. -/
def demoW2 : World :=
  { backend := { Backend.new with files := [["a"], ["b"]] },
    fs := {["a"], ["b"]} }

/-- A one-file session: file `a` loaded, cursor at 0. -/
def demoW1 : World :=
  { backend := { Backend.new with files := [["a"]] }, fs := {["a"]} }

/-- The three-file session with the cursor on the last file. -/
def demoW3last : World :=
  { backend := { Backend.new with
                   files := [["a"], ["b"], ["c"]],
                   current_file_index := 2 },
    fs := {["a"], ["b"], ["c"]} }

/-- `demoW3` after one successful `skip`. -/
def c1afterSkip : World :=
  { backend := { Backend.new with
                   files := [["a"], ["b"], ["c"]],
                   current_file_index := 1,
                   undo_stack := [.skip] },
    fs := {["a"], ["b"], ["c"]} }

/-- `c1afterSkip` after `undo`: the skip sits on the redo stack. -/
def c1afterUndo : World :=
  { backend := { Backend.new with
                   files := [["a"], ["b"], ["c"]],
                   current_file_index := 0,
                   redo_stack := [.skip] },
    fs := {["a"], ["b"], ["c"]} }

/-- `c1afterUndo` after a second `skip`: the redo stack is retained. -/
def c1afterSkip2 : World :=
  { backend := { Backend.new with
                   files := [["a"], ["b"], ["c"]],
                   current_file_index := 1,
                   undo_stack := [.skip],
                   redo_stack := [.skip] },
    fs := {["a"], ["b"], ["c"]} }

/-- `c1afterSkip2` after `redo`: the stale redo still advances the cursor. -/
def c1afterRedo : World :=
  { backend := { Backend.new with
                   files := [["a"], ["b"], ["c"]],
                   current_file_index := 2,
                   undo_stack := [.skip, .skip],
                   redo_stack := [] },
    fs := {["a"], ["b"], ["c"]} }

/-- A freshly loaded one-file session (pwd `dirA`). -/
def c4loaded : World :=
  { backend := { Backend.new with
                   files := [["a"]],
                   pwd := "dirA" },
    fs := {["a"]} }

/-- `c4loaded` after `delete_file`: a `Skip` sentinel was pushed but the
cursor stayed at 0. -/
def c4afterDelete : World :=
  { backend := { Backend.new with
                   files := [["a"]],
                   pwd := "dirA",
                   undo_stack := [.skip] },
    fs := ({["a"]} : Fs).erase ["a"] }

/-- A session holding an undoable `Move` of `a` to `d`, where `a` has
meanwhile reappeared at its original path, so undoing the move fails. -/
def c2start : World :=
  { backend := { Backend.new with
                   files := [["a"], ["b"]],
                   current_file_index := 1,
                   undo_stack := [.move ["a"] ["d"]] },
    fs := {["a"], ["d"]} }

/-- The state `undo` leaves behind when it fails on `c2start`: the command
migrated to the redo stack and the cursor moved anyway. -/
def c2afterUndo : World :=
  { backend := { Backend.new with
                   files := [["a"], ["b"]],
                   current_file_index := 0,
                   undo_stack := [],
                   redo_stack := [.move ["a"] ["d"]] },
    fs := {["a"], ["d"]} }

/-- The three-file session after two successful skips (cursor at 2). -/
def c3afterTwoSkips : World :=
  { backend := { Backend.new with
                   files := [["a"], ["b"], ["c"]],
                   current_file_index := 2,
                   undo_stack := [.skip, .skip] },
    fs := {["a"], ["b"], ["c"]} }

/-- `c3afterTwoSkips` after a failed third skip: the flag is set but no
command was pushed. -/
def c3afterFailedSkip : World :=
  { backend := { Backend.new with
                   files := [["a"], ["b"], ["c"]],
                   current_file_index := 2,
                   undo_stack := [.skip, .skip],
                   end_of_files := true },
    fs := {["a"], ["b"], ["c"]} }

/-- `c3afterFailedSkip` after `undo`: the cursor did not move. -/
def c3afterUndo : World :=
  { backend := { Backend.new with
                   files := [["a"], ["b"], ["c"]],
                   current_file_index := 2,
                   undo_stack := [.skip],
                   redo_stack := [.skip] },
    fs := {["a"], ["b"], ["c"]} }

/-- A fresh engine after loading a one-file directory `dirX`. -/
def c6loadedX : World :=
  { backend := { Backend.new with
                   files := [["x"]],
                   pwd := "dirX" },
    fs := {["a"], ["b"], ["c"]} }

/-- `c6loadedX` after a failed skip: the boundary flag is set. -/
def c6flagged : World :=
  { backend := { Backend.new with
                   files := [["x"]],
                   pwd := "dirX",
                   end_of_files := true },
    fs := {["a"], ["b"], ["c"]} }

/-- `c6flagged` after reloading `dirA`: everything reset except the stale
boundary flag. -/
def c6reloaded : World :=
  { backend := { Backend.new with
                   files := [["a"], ["b"], ["c"]],
                   folders := [["F"]],
                   pwd := "dirA",
                   end_of_files := true },
    fs := {["a"], ["b"], ["c"]} }

/-- `c6reloaded` after moving `a` into `F`. -/
def c6moved : World :=
  { backend := { Backend.new with
                   files := [["a"], ["b"], ["c"]],
                   folders := [["F"]],
                   pwd := "dirA",
                   current_file_index := 1,
                   undo_stack := [.move ["a"] ["F", "a"]],
                   end_of_files := true },
    fs := {["F", "a"], ["b"], ["c"]} }

/-- `c6moved` after `undo`: the stale flag was consumed, the cursor did
not move back. -/
def c6undone : World :=
  { backend := { Backend.new with
                   files := [["a"], ["b"], ["c"]],
                   folders := [["F"]],
                   pwd := "dirA",
                   current_file_index := 1,
                   redo_stack := [.move ["a"] ["F", "a"]] },
    fs := {["a"], ["b"], ["c"]} }

/-- `c6undone` after `redo`: the cursor ends at 2, two past where the
move started. -/
def c6redone : World :=
  { backend := { Backend.new with
                   files := [["a"], ["b"], ["c"]],
                   folders := [["F"]],
                   pwd := "dirA",
                   current_file_index := 2,
                   undo_stack := [.move ["a"] ["F", "a"]] },
    fs := {["F", "a"], ["b"], ["c"]} }

/-- A user decision in a triage sequence: move the current file into a
folder, or skip it. -/
inductive TriageAction where
  | mov (to_folder : FsPath)
  | skp
  deriving DecidableEq, Repr

/-- Run one action, keeping only fully successful outcomes. -/
def applyAction (w : World) : TriageAction → Option World
  | .mov to_folder =>
      match moveFile w to_folder with
      | .ok w1 => some w1
      | _ => none
  | .skp =>
      match skip w with
      | .ok w1 => some w1
      | _ => none

/-- Run a list of actions, all of which must succeed. -/
def applyActions (w : World) : List TriageAction → Option World
  | [] => some w
  | a :: rest =>
      match applyAction w a with
      | some w1 => applyActions w1 rest
      | none => none

/-- Run `undo` once, keeping only a successful outcome. -/
def undoStep (w : World) : Option World :=
  match undo w with
  | .ok w1 => some w1
  | _ => none

/-- Run `undo` `n` times, all of which must succeed. -/
def undoN : Nat → World → Option World
  | 0, w => some w
  | n + 1, w =>
      match undoStep w with
      | some w1 => undoN n w1
      | none => none

/-- `demoW2` after one successful skip. -/
def c5afterSkip : World :=
  { backend := { Backend.new with
                   files := [["a"], ["b"]],
                   current_file_index := 1,
                   undo_stack := [.skip] },
    fs := {["a"], ["b"]} }

/-- `c5afterSkip` after `undo`: cursor and undo stack are restored but the
redo stack now holds the undone skip. -/
def c5afterUndo : World :=
  { backend := { Backend.new with
                   files := [["a"], ["b"]],
                   current_file_index := 0,
                   redo_stack := [.skip] },
    fs := {["a"], ["b"]} }

/-! ### Claim theorems -/

/-- Claim C7: with the cursor already at the last index of a non-empty file
list, `skip` fails with the end-of-files error, does not advance the
cursor, pushes no `Skip` command, and only sets the boundary flag. -/
theorem skip_at_last_index_fails (w : World)
    (hne : w.backend.files ≠ [])
    (hlast : w.backend.current_file_index = w.backend.files.length - 1) :
    skip w = .err .unexpectedEof
      { w with backend := { w.backend with end_of_files := true } } := by
  have hlen : 1 ≤ w.backend.files.length := by
    cases h : w.backend.files with
    | nil => exact absurd h hne
    | cons a t => simp [h]
  have hge : w.backend.current_file_index + 1 ≥ w.backend.files.length := by
    omega
  simp [skip, increment, isEndOfFiles, hge]

/-- Witness for `skip_at_last_index_fails`: a three-file list with the
cursor at index 2. -/
theorem skip_at_last_index_fails_witness :
    skip demoW3last = .err .unexpectedEof
      { demoW3last with
        backend := { demoW3last.backend with end_of_files := true } } :=
  skip_at_last_index_fails demoW3last (by decide) (by decide)

/-- Claim C8: with a current file, `delete_file` asks the storage port to
remove exactly that file; a removal failure is propagated with no state
change, and success pushes exactly one `Skip` command and leaves the
cursor (and everything else) unchanged. -/
theorem delete_file_spec (w : World) (file : FsPath)
    (hcur : getCurrentFile w.backend = some file) :
    (∀ e, fsDeleteFile w.fs file = .error e → deleteFile w = .err e w) ∧
    (∀ fs1, fsDeleteFile w.fs file = .ok fs1 →
      deleteFile w = .ok { backend := { w.backend with
          undo_stack := .skip :: w.backend.undo_stack }, fs := fs1 }) := by
  constructor
  · intro e he
    simp [deleteFile, hcur, he]
  · intro fs1 hf
    simp [deleteFile, hcur, hf]

/-- Witness for `delete_file_spec`: deleting file `a` in the one-file
session pushes one `Skip`, keeps the cursor, and erases `a`. -/
theorem delete_file_spec_witness :
    deleteFile demoW1 = .ok
      { backend := { demoW1.backend with
          undo_stack := .skip :: demoW1.backend.undo_stack },
        fs := demoW1.fs.erase ["a"] } :=
  (delete_file_spec demoW1 ["a"] (by decide)).2 (demoW1.fs.erase ["a"])
    (by simp [fsDeleteFile, demoW1])

/-- Claim C9: a successful `load_external_folders` replaces only the folder
list; files, cursor, pwd, both stacks, the boundary flag and the filesystem
are untouched. -/
theorem load_external_folders_frame (w : World)
    (folders files : List FsPath) :
    ∃ w1, loadExternalFolders w (.ok (folders, files)) = .ok w1 ∧
      w1.backend.folders = folders ∧
      w1.backend.files = w.backend.files ∧
      w1.backend.current_file_index = w.backend.current_file_index ∧
      w1.backend.pwd = w.backend.pwd ∧
      w1.backend.undo_stack = w.backend.undo_stack ∧
      w1.backend.redo_stack = w.backend.redo_stack ∧
      w1.backend.end_of_files = w.backend.end_of_files ∧
      w1.fs = w.fs :=
  ⟨_, rfl, rfl, rfl, rfl, rfl, rfl, rfl, rfl, rfl⟩

/-- Claim C1 (code bug): a successful `skip` does not clear the redo
stack — contradicting the doc comment on `Backend::redo` ("the redo_stack
gets cleared when any action that isn't a redo or an undo is performed") —
so after `skip` a `redo` still advances the cursor instead of being a
no-op. -/
theorem skip_retains_redo_stack :
    skip demoW3 = .ok c1afterSkip ∧
    undo c1afterSkip = .ok c1afterUndo ∧
    c1afterUndo.backend.redo_stack = [Cmd.skip] ∧
    skip c1afterUndo = .ok c1afterSkip2 ∧
    c1afterSkip2.backend.redo_stack = [Cmd.skip] ∧
    redo c1afterSkip2 = .ok c1afterRedo ∧
    c1afterRedo.backend.current_file_index =
      c1afterSkip2.backend.current_file_index + 1 := by
  refine ⟨?_, ?_, rfl, ?_, rfl, ?_, rfl⟩ <;> decide

/-- Claim C4 (code bug): from a freshly loaded one-file session,
`delete_file` followed by `undo` reaches the cursor decrement with the
cursor at 0 and the flag clear: the unguarded usize subtraction underflows
(a panic in debug builds; in release builds the cursor would wrap far past
`len(files)`, breaking the bound). -/
theorem cursor_bound_underflow :
    loadFoldersAndFiles { backend := Backend.new, fs := {["a"]} } "dirA"
        (.ok ([], [["a"]])) = .ok c4loaded ∧
    deleteFile c4loaded = .ok c4afterDelete ∧
    undo c4afterDelete = .panic := by
  refine ⟨?_, ?_, ?_⟩ <;> decide

/-- Claim C10 (code bug): in any state with a non-empty undo stack, the
end-of-files flag clear and the cursor at 0, `undo` runs the decrement
branch with cursor 0 — the subtraction `current_file_index -= 1` is not
guarded and underflows (modelled as the panic outcome). -/
theorem undo_underflows_at_cursor_zero (w : World) (item : Cmd)
    (rest : List Cmd)
    (hstack : w.backend.undo_stack = item :: rest)
    (hflag : w.backend.end_of_files = false)
    (hcur : w.backend.current_file_index = 0) :
    undo w = .panic := by
  simp [undo, hstack, hflag, hcur]

/-- Witness for `undo_underflows_at_cursor_zero`: the state reached by
deleting the only file of a fresh session. -/
theorem undo_underflows_at_cursor_zero_witness :
    undo c4afterDelete = .panic :=
  undo_underflows_at_cursor_zero c4afterDelete .skip [] rfl rfl rfl

/-- Claim C2 counterexample: an `undo` whose popped command's rename fails
(`AlreadyExists`: file `a` is back at its source path) returns the error
yet still pops the undo stack, pushes the command onto the redo stack and
decrements the cursor — the state does not equal the pre-call state. -/
theorem undo_error_mutates_state :
    undo c2start = .err .alreadyExists c2afterUndo ∧
    c2afterUndo.backend.undo_stack ≠ c2start.backend.undo_stack ∧
    c2afterUndo.backend.redo_stack ≠ c2start.backend.redo_stack ∧
    c2afterUndo.backend.current_file_index ≠
      c2start.backend.current_file_index := by
  refine ⟨?_, ?_, ?_, ?_⟩ <;> decide

/-- Claim C2 (amended): a failing load / external-load / add-folder /
delete leaves the state exactly as before; a failing `skip` changes only
the boundary flag; a failing `move_file` either leaves the state unchanged
or — the noted end-of-files exception — leaves the committed rename and
the pushed `Move` in place with the cursor unmoved; but `undo` and `redo`
transfer the popped command between the stacks even when returning an
error. -/
theorem error_frame_spec :
    (∀ w dir resp e w1,
       loadFoldersAndFiles w dir resp = .err e w1 → w1 = w) ∧
    (∀ w resp e w1, loadExternalFolders w resp = .err e w1 → w1 = w) ∧
    (∀ w resp e w1, addFolder w resp = .err e w1 → w1 = w) ∧
    (∀ w e w1, deleteFile w = .err e w1 → w1 = w) ∧
    (∀ w e w1, skip w = .err e w1 →
       w1 = { w with backend := { w.backend with end_of_files := true } }) ∧
    (∀ w to_folder e w1, moveFile w to_folder = .err e w1 →
       w1 = w ∨
       (e = .unexpectedEof ∧
        ∃ from_file destination,
          getCurrentFile w.backend = some from_file ∧
          fsMoveFile w.fs from_file destination = .ok w1.fs ∧
          w1.backend.undo_stack =
            .move from_file destination :: w.backend.undo_stack ∧
          w1.backend.current_file_index = w.backend.current_file_index ∧
          w1.backend.redo_stack = w.backend.redo_stack ∧
          w1.backend.files = w.backend.files ∧
          w1.backend.folders = w.backend.folders)) ∧
    (∀ w e w1, undo w = .err e w1 →
       ∃ item rest, w.backend.undo_stack = item :: rest ∧
         w1.backend.undo_stack = rest ∧
         w1.backend.redo_stack = item :: w.backend.redo_stack) ∧
    (∀ w e w1, redo w = .err e w1 →
       ∃ item rest, w.backend.redo_stack = item :: rest ∧
         w1.backend.redo_stack = rest ∧
         w1.backend.undo_stack = item :: w.backend.undo_stack) := by
  refine ⟨?_, ?_, ?_, ?_, ?_, ?_, ?_, ?_⟩
  · intro w dir resp e w1 h
    cases resp with
    | error e2 => simp [loadFoldersAndFiles] at h; exact h.2.symm
    | ok p => obtain ⟨fo, fi⟩ := p; simp [loadFoldersAndFiles] at h
  · intro w resp e w1 h
    cases resp with
    | error e2 => simp [loadExternalFolders] at h; exact h.2.symm
    | ok p => obtain ⟨fo, fi⟩ := p; simp [loadExternalFolders] at h
  · intro w resp e w1 h
    cases resp with
    | error e2 => simp [addFolder] at h; exact h.2.symm
    | ok f => simp [addFolder] at h
  · intro w e w1 h
    cases hc : getCurrentFile w.backend with
    | none => simp [deleteFile, hc] at h
    | some file =>
        cases hd : fsDeleteFile w.fs file with
        | error e2 =>
            simp [deleteFile, hc, hd] at h
            exact h.2.symm
        | ok fs1 => simp [deleteFile, hc, hd] at h
  · intro w e w1 h
    by_cases hge : w.backend.current_file_index + 1 ≥ w.backend.files.length
    · simp [skip, increment, isEndOfFiles, hge] at h
      exact h.2.symm
    · simp [skip, increment, isEndOfFiles, hge] at h
  · intro w to_folder e w1 h
    by_cases hemp : w.backend.files = []
    · simp [moveFile, hemp] at h
      exact Or.inl h.2.symm
    · cases hc : getCurrentFile w.backend with
      | none => simp [moveFile, hemp, hc] at h
      | some from_file =>
          cases hb : buildDestination to_folder from_file with
          | error e2 =>
              simp [moveFile, hemp, hc, hb] at h
              exact Or.inl h.2.symm
          | ok destination =>
              cases hm : fsMoveFile w.fs from_file destination with
              | error e2 =>
                  simp [moveFile, hemp, hc, hb, hm] at h
                  exact Or.inl h.2.symm
              | ok fs1 =>
                  by_cases hge : w.backend.current_file_index + 1 ≥
                      w.backend.files.length
                  · simp [moveFile, hemp, hc, hb, hm, increment,
                      isEndOfFiles, hge] at h
                    obtain ⟨he, hw⟩ := h
                    subst hw
                    exact Or.inr ⟨he.symm, from_file, destination, rfl,
                      by simp [hm], by simp, by simp, by simp, by simp,
                      by simp⟩
                  · simp [moveFile, hemp, hc, hb, hm, increment,
                      isEndOfFiles, hge] at h
  · intro w e w1 h
    cases hs : w.backend.undo_stack with
    | nil => simp [undo, hs] at h
    | cons item rest =>
        refine ⟨item, rest, rfl, ?_⟩
        cases hf : w.backend.end_of_files with
        | true =>
            cases hu : cmdUndo item w.fs with
            | ok f => simp [undo, hs, hf, hu] at h
            | error e2 =>
                simp [undo, hs, hf, hu] at h
                obtain ⟨he, hw⟩ := h
                subst hw
                exact ⟨by simp, by simp⟩
        | false =>
            by_cases hz : w.backend.current_file_index = 0
            · simp [undo, hs, hf, hz] at h
            · cases hu : cmdUndo item w.fs with
              | ok f => simp [undo, hs, hf, hz, hu] at h
              | error e2 =>
                  simp [undo, hs, hf, hz, hu] at h
                  obtain ⟨he, hw⟩ := h
                  subst hw
                  exact ⟨by simp, by simp⟩
  · intro w e w1 h
    cases hs : w.backend.redo_stack with
    | nil => simp [redo, hs] at h
    | cons item rest =>
        refine ⟨item, rest, rfl, ?_⟩
        by_cases hge : w.backend.current_file_index + 1 ≥
            w.backend.files.length
        · simp [redo, hs, increment, isEndOfFiles, hge] at h
          obtain ⟨he, hw⟩ := h
          subst hw
          exact ⟨by simp, by simp⟩
        · cases hr : cmdRedo item w.fs with
          | ok f => simp [redo, hs, hr, increment, isEndOfFiles, hge] at h
          | error e2 =>
              simp [redo, hs, hr, increment, isEndOfFiles, hge] at h
              obtain ⟨he, hw⟩ := h
              subst hw
              exact ⟨by simp, by simp⟩

/-- Witness for `error_frame_spec`: its `undo` clause applied to the
failing undo of `c2start`. -/
theorem error_frame_spec_witness :
    ∃ item rest, c2start.backend.undo_stack = item :: rest ∧
      c2afterUndo.backend.undo_stack = rest ∧
      c2afterUndo.backend.redo_stack = item :: c2start.backend.redo_stack :=
  error_frame_spec.2.2.2.2.2.2.1 c2start .alreadyExists c2afterUndo
    (by decide)

/-- Claim C3 counterexample: after skip, skip, failed-skip from the fresh
three-file session, the popped command belongs to the second skip, which
advanced normally and did not trigger end-of-files — the boundary was hit
by the later failed skip, which pushed nothing.  Yet `undo` consults the
stale flag and leaves the cursor at 2 instead of decrementing it to 1. -/
theorem undo_stale_flag_cex :
    skip demoW3 = .ok c1afterSkip ∧
    skip c1afterSkip = .ok c3afterTwoSkips ∧
    skip c3afterTwoSkips = .err .unexpectedEof c3afterFailedSkip ∧
    c3afterFailedSkip.backend.undo_stack =
      c3afterTwoSkips.backend.undo_stack ∧
    undo c3afterFailedSkip = .ok c3afterUndo ∧
    c3afterUndo.backend.current_file_index = 2 ∧
    c3afterTwoSkips.backend.current_file_index - 1 = 1 := by
  refine ⟨?_, ?_, ?_, rfl, ?_, rfl, rfl⟩ <;> decide

/-- Claim C3 (amended): `undo` on a non-empty undo stack pops the top
command, runs its `undo()`, pushes it onto the redo stack, and then picks
decrement-versus-clear based solely on the engine's current `end_of_files`
flag — a flag set by any failed advance (even one that pushed no command)
and never reset by a reload, so it need not reflect whether the popped
action triggered the boundary; with the flag clear and the cursor at 0 the
decrement underflows. -/
theorem undo_flag_semantics (w : World) (item : Cmd) (rest : List Cmd)
    (hstack : w.backend.undo_stack = item :: rest) :
    (w.backend.end_of_files = true →
       ∃ w1, (undo w = .ok w1 ∨ ∃ e, undo w = .err e w1) ∧
         w1.backend.current_file_index = w.backend.current_file_index ∧
         w1.backend.end_of_files = false ∧
         w1.backend.undo_stack = rest ∧
         w1.backend.redo_stack = item :: w.backend.redo_stack) ∧
    (w.backend.end_of_files = false → 1 ≤ w.backend.current_file_index →
       ∃ w1, (undo w = .ok w1 ∨ ∃ e, undo w = .err e w1) ∧
         w1.backend.current_file_index = w.backend.current_file_index - 1 ∧
         w1.backend.end_of_files = false ∧
         w1.backend.undo_stack = rest ∧
         w1.backend.redo_stack = item :: w.backend.redo_stack) ∧
    (w.backend.end_of_files = false → w.backend.current_file_index = 0 →
       undo w = .panic) := by
  refine ⟨?_, ?_, ?_⟩
  · intro hf
    cases hu : cmdUndo item w.fs with
    | ok f =>
        refine ⟨{ backend := { w.backend with
                      undo_stack := rest,
                      redo_stack := item :: w.backend.redo_stack,
                      end_of_files := false },
                  fs := f },
          Or.inl ?_, by simp, by simp, by simp, by simp⟩
        simp [undo, hstack, hf, hu]
    | error e2 =>
        refine ⟨{ backend := { w.backend with
                      undo_stack := rest,
                      redo_stack := item :: w.backend.redo_stack,
                      end_of_files := false },
                  fs := w.fs },
          Or.inr ⟨e2, ?_⟩, by simp, by simp, by simp, by simp⟩
        simp [undo, hstack, hf, hu]
  · intro hf hpos
    have hz : ¬ w.backend.current_file_index = 0 := by omega
    cases hu : cmdUndo item w.fs with
    | ok f =>
        refine ⟨{ backend := { w.backend with
                      undo_stack := rest,
                      redo_stack := item :: w.backend.redo_stack,
                      current_file_index := w.backend.current_file_index - 1 },
                  fs := f },
          Or.inl ?_, by simp, by simp [hf], by simp, by simp⟩
        simp [undo, hstack, hf, hz, hu]
    | error e2 =>
        refine ⟨{ backend := { w.backend with
                      undo_stack := rest,
                      redo_stack := item :: w.backend.redo_stack,
                      current_file_index := w.backend.current_file_index - 1 },
                  fs := w.fs },
          Or.inr ⟨e2, ?_⟩, by simp, by simp [hf], by simp, by simp⟩
        simp [undo, hstack, hf, hz, hu]
  · intro hf hz
    simp [undo, hstack, hf, hz]

/-- Witness for `undo_flag_semantics`: the stale-flag state reached by the
failed skip; the flag branch fires and the cursor stays at 2. -/
theorem undo_flag_semantics_witness :
    ∃ w1, (undo c3afterFailedSkip = .ok w1 ∨
        ∃ e, undo c3afterFailedSkip = .err e w1) ∧
      w1.backend.current_file_index =
        c3afterFailedSkip.backend.current_file_index ∧
      w1.backend.end_of_files = false ∧
      w1.backend.undo_stack = [Cmd.skip] ∧
      w1.backend.redo_stack = .skip :: c3afterFailedSkip.backend.redo_stack :=
  (undo_flag_semantics c3afterFailedSkip .skip [.skip] rfl).1 rfl

/-- Claim C6 counterexample: a reachable state with a current file (after a
reload the boundary flag is stale-true) where `move_file`, `undo`, `redo`
ends with the cursor at 2 — advanced by two, not one, relative to the
pre-move state (cursor 0), because `undo` consumed the stale flag instead
of decrementing. -/
theorem move_undo_redo_stale_flag_cex :
    loadFoldersAndFiles { backend := Backend.new, fs := {["a"], ["b"], ["c"]} }
        "dirX" (.ok ([], [["x"]])) = .ok c6loadedX ∧
    skip c6loadedX = .err .unexpectedEof c6flagged ∧
    loadFoldersAndFiles c6flagged "dirA"
        (.ok ([["F"]], [["a"], ["b"], ["c"]])) = .ok c6reloaded ∧
    getCurrentFile c6reloaded.backend = some ["a"] ∧
    moveFile c6reloaded ["F"] = .ok c6moved ∧
    undo c6moved = .ok c6undone ∧
    redo c6undone = .ok c6redone ∧
    c6reloaded.backend.current_file_index = 0 ∧
    c6redone.backend.current_file_index = 2 ∧
    c6redone.backend.current_file_index ≠
      c6reloaded.backend.current_file_index + 1 := by
  refine ⟨?_, ?_, ?_, ?_, ?_, ?_, ?_, rfl, rfl, ?_⟩ <;> decide

/-- Claim C6 (amended): from any state with a current file where the
end-of-files flag is clear, the destination does not yet exist, the source
occurs exactly once in the filesystem, and the cursor is not on the last
file, `move_file` then `undo` then `redo` re-applies the relocation to the
same destination `to_folder/file_name` (restoring the filesystem in
between) and leaves the cursor advanced by exactly one. -/
theorem move_undo_redo_round_trip (w : World)
    (to_folder from_file : FsPath) (file_name : String)
    (hflag : w.backend.end_of_files = false)
    (hcur : getCurrentFile w.backend = some from_file)
    (hname : fileNameOf from_file = some file_name)
    (hdest : to_folder ++ [file_name] ∉ w.fs)
    (hcount : w.fs.count from_file = 1)
    (hlt : w.backend.current_file_index + 1 < w.backend.files.length) :
    ∃ w1 w2 w3,
      moveFile w to_folder = .ok w1 ∧
      w1.fs = (to_folder ++ [file_name]) ::ₘ w.fs.erase from_file ∧
      undo w1 = .ok w2 ∧
      w2.fs = w.fs ∧
      w2.backend.current_file_index = w.backend.current_file_index ∧
      redo w2 = .ok w3 ∧
      w3.fs = (to_folder ++ [file_name]) ::ₘ w.fs.erase from_file ∧
      w3.backend.current_file_index = w.backend.current_file_index + 1 ∧
      w3.backend.undo_stack =
        .move from_file (to_folder ++ [file_name]) :: w.backend.undo_stack ∧
      w3.backend.redo_stack = w.backend.redo_stack := by
  have hne : w.backend.files ≠ [] := by
    intro h0
    rw [h0] at hlt
    simp at hlt
  have hmem : from_file ∈ w.fs := by
    rw [← Multiset.count_pos, hcount]
    norm_num
  have hnotdup : from_file ∉ w.fs.erase from_file := by
    rw [← Multiset.count_pos, Multiset.count_erase_self, hcount]
    norm_num
  have hdnf : ¬ from_file = to_folder ++ [file_name] := by
    intro h0
    exact hdest (h0 ▸ hmem)
  have hfs1 : fsMoveFile w.fs from_file (to_folder ++ [file_name]) =
      .ok ((to_folder ++ [file_name]) ::ₘ w.fs.erase from_file) := by
    simp [fsMoveFile, hdest, hmem]
  have hnf1 : from_file ∉
      ((to_folder ++ [file_name]) ::ₘ w.fs.erase from_file) := by
    rw [Multiset.mem_cons]
    push_neg
    exact ⟨hdnf, hnotdup⟩
  have hfsu :
      fsMoveFile ((to_folder ++ [file_name]) ::ₘ w.fs.erase from_file)
        (to_folder ++ [file_name]) from_file = .ok w.fs := by
    simp only [fsMoveFile, if_neg hnf1, if_pos (Multiset.mem_cons_self _ _),
      Multiset.erase_cons_head, Multiset.cons_erase hmem]
  have hnge : ¬ w.backend.current_file_index + 1 ≥
      w.backend.files.length := by
    omega
  have hbd : buildDestination to_folder from_file =
      .ok (to_folder ++ [file_name]) := by
    simp [buildDestination, hname]
  have hm1 : moveFile w to_folder = .ok
      { backend := { w.backend with
            undo_stack := .move from_file (to_folder ++ [file_name]) ::
              w.backend.undo_stack,
            current_file_index := w.backend.current_file_index + 1 },
        fs := (to_folder ++ [file_name]) ::ₘ w.fs.erase from_file } := by
    simp [moveFile, hne, hcur, hbd, hfs1, increment, isEndOfFiles, hnge]
  have hu1 : undo
      { backend := { w.backend with
            undo_stack := .move from_file (to_folder ++ [file_name]) ::
              w.backend.undo_stack,
            current_file_index := w.backend.current_file_index + 1 },
        fs := (to_folder ++ [file_name]) ::ₘ w.fs.erase from_file } = .ok
      { backend := { w.backend with
            redo_stack := .move from_file (to_folder ++ [file_name]) ::
              w.backend.redo_stack },
        fs := w.fs } := by
    simp [undo, cmdUndo, hfsu, hflag]
  have hr1 : redo
      { backend := { w.backend with
            redo_stack := .move from_file (to_folder ++ [file_name]) ::
              w.backend.redo_stack },
        fs := w.fs } = .ok
      { backend := { w.backend with
            undo_stack := .move from_file (to_folder ++ [file_name]) ::
              w.backend.undo_stack,
            current_file_index := w.backend.current_file_index + 1 },
        fs := (to_folder ++ [file_name]) ::ₘ w.fs.erase from_file } := by
    simp [redo, cmdRedo, hfs1, increment, isEndOfFiles, hnge]
  exact ⟨_, _, _, hm1, rfl, hu1, rfl, by simp, hr1, rfl, by simp, by simp,
    by simp⟩

/-- Witness for `move_undo_redo_round_trip`: moving `a` into folder `F`
in the fresh two-file session. -/
theorem move_undo_redo_round_trip_witness :
    ∃ w1 w2 w3,
      moveFile demoW2 ["F"] = .ok w1 ∧
      w1.fs = (["F"] ++ ["a"]) ::ₘ demoW2.fs.erase ["a"] ∧
      undo w1 = .ok w2 ∧
      w2.fs = demoW2.fs ∧
      w2.backend.current_file_index = demoW2.backend.current_file_index ∧
      redo w2 = .ok w3 ∧
      w3.fs = (["F"] ++ ["a"]) ::ₘ demoW2.fs.erase ["a"] ∧
      w3.backend.current_file_index =
        demoW2.backend.current_file_index + 1 ∧
      w3.backend.undo_stack = .move ["a"] (["F"] ++ ["a"]) ::
        demoW2.backend.undo_stack ∧
      w3.backend.redo_stack = demoW2.backend.redo_stack :=
  move_undo_redo_round_trip demoW2 ["F"] ["a"] "a" rfl (by decide)
    (by decide) (by decide) (by decide) (by decide)

/-- Peeling an `undo` off the back of an `undoN` chain. -/
theorem undoN_succ_right (n : Nat) (w : World) :
    undoN (n + 1) w = (undoN n w).bind undoStep := by
  induction n generalizing w with
  | zero => cases h : undoStep w <;> simp [undoN, h]
  | succ n ih =>
      cases h : undoStep w with
      | none => simp [undoN, h]
      | some w1 =>
          simp only [undoN, h]
          exact ih w1

/-- A cursor strictly inside the file list always has a current file. -/
theorem getCurrentFile_eq_some (b : Backend)
    (h : b.current_file_index < b.files.length) :
    ∃ f, getCurrentFile b = some f := by
  unfold getCurrentFile
  rw [if_neg (by omega)]
  cases hg : b.files.get? b.current_file_index with
  | none =>
      rw [List.get?_eq_none] at hg
      omega
  | some f => exact ⟨f, rfl⟩

/-- Undoing a committed rename restores the filesystem, provided the
filesystem is duplicate-free. -/
theorem fsMoveFile_inverse (fs : Fs) (from_file dest : FsPath)
    (hnd : fs.Nodup) (hmem : from_file ∈ fs) (hdest : dest ∉ fs) :
    fsMoveFile (dest ::ₘ fs.erase from_file) dest from_file = .ok fs := by
  have hcount : fs.count from_file = 1 :=
    Multiset.count_eq_one_of_mem hnd hmem
  have hnotdup : from_file ∉ fs.erase from_file := by
    rw [← Multiset.count_pos, Multiset.count_erase_self, hcount]
    norm_num
  have hnf1 : from_file ∉ (dest ::ₘ fs.erase from_file) := by
    rw [Multiset.mem_cons]
    push_neg
    refine ⟨?_, hnotdup⟩
    intro h0
    exact hdest (h0 ▸ hmem)
  simp only [fsMoveFile, if_neg hnf1, if_pos (Multiset.mem_cons_self _ _),
    Multiset.erase_cons_head, Multiset.cons_erase hmem]

/-- One successful move/skip from a flag-clear, duplicate-free state with
the cursor inside the list pushes exactly one command, advances the cursor
by one, changes nothing else in the engine, keeps the filesystem
duplicate-free, and the pushed command's `undo()` restores the
filesystem. -/
theorem applyAction_ok (w w1 : World) (a : TriageAction)
    (hflag : w.backend.end_of_files = false)
    (hnd : w.fs.Nodup)
    (hcl : w.backend.current_file_index < w.backend.files.length ∨
      w.backend.files = [])
    (happ : applyAction w a = some w1) :
    ∃ c : Cmd,
      w1.backend.undo_stack = c :: w.backend.undo_stack ∧
      w1.backend.redo_stack = w.backend.redo_stack ∧
      w1.backend.files = w.backend.files ∧
      w1.backend.folders = w.backend.folders ∧
      w1.backend.pwd = w.backend.pwd ∧
      w1.backend.current_file_index = w.backend.current_file_index + 1 ∧
      w1.backend.current_file_index < w1.backend.files.length ∧
      w1.backend.end_of_files = false ∧
      w1.fs.Nodup ∧
      cmdUndo c w1.fs = .ok w.fs := by
  cases a with
  | skp =>
      by_cases hge : w.backend.current_file_index + 1 ≥
          w.backend.files.length
      · simp [applyAction, skip, increment, isEndOfFiles, hge] at happ
      · simp [applyAction, skip, increment, isEndOfFiles, hge] at happ
        subst happ
        exact ⟨.skip, by simp, by simp, by simp, by simp, by simp, by simp,
          by simp; omega, by simp [hflag], by simp [hnd], by simp [cmdUndo]⟩
  | mov to_folder =>
      by_cases hemp : w.backend.files = []
      · simp [applyAction, moveFile, hemp] at happ
      · have hcl2 : w.backend.current_file_index <
            w.backend.files.length := by
          cases hcl with
          | inl h => exact h
          | inr h => exact absurd h hemp
        obtain ⟨from_file, hcur⟩ := getCurrentFile_eq_some w.backend hcl2
        cases hb : buildDestination to_folder from_file with
        | error e2 => simp [applyAction, moveFile, hemp, hcur, hb] at happ
        | ok dest =>
            cases hm : fsMoveFile w.fs from_file dest with
            | error e2 =>
                simp [applyAction, moveFile, hemp, hcur, hb, hm] at happ
            | ok fs1 =>
                by_cases hge : w.backend.current_file_index + 1 ≥
                    w.backend.files.length
                · simp [applyAction, moveFile, hemp, hcur, hb, hm,
                    increment, isEndOfFiles, hge] at happ
                · have hdest : dest ∉ w.fs := by
                    by_contra hin
                    simp [fsMoveFile, hin] at hm
                  have hmem : from_file ∈ w.fs := by
                    by_contra hnin
                    simp [fsMoveFile, hdest, hnin] at hm
                  have hfs1 : fs1 = dest ::ₘ w.fs.erase from_file := by
                    simp [fsMoveFile, hdest, hmem] at hm
                    exact hm.symm
                  simp [applyAction, moveFile, hemp, hcur, hb, hm,
                    increment, isEndOfFiles, hge] at happ
                  subst happ
                  subst hfs1
                  refine ⟨.move from_file dest, by simp, by simp, by simp,
                    by simp, by simp, by simp, by simp; omega,
                    by simp [hflag], ?_, ?_⟩
                  · simp only []
                    exact Multiset.nodup_cons.mpr ⟨fun hc =>
                      hdest (Multiset.mem_of_mem_erase hc), hnd.erase _⟩
                  · simp only [cmdUndo]
                    exact fsMoveFile_inverse w.fs from_file dest hnd hmem
                      hdest

/-- Claim C5 (amended): from a flag-clear, duplicate-free state (what a
truly fresh engine gives after a successful load), any sequence of N fully
successful move/skip actions followed by N `undo` calls restores the
cursor, the undo stack, the remaining engine fields and the filesystem to
their pre-sequence state (every moved file is back at its original path);
the redo stack does not return to its pre-sequence state — it ends holding
exactly the N undone commands on top of its previous content. -/
theorem unwind_undo (acts : List TriageAction) (w w1 : World)
    (hflag : w.backend.end_of_files = false)
    (hnd : w.fs.Nodup)
    (hcl : w.backend.current_file_index < w.backend.files.length ∨
      w.backend.files = [])
    (happ : applyActions w acts = some w1) :
    ∃ cs : List Cmd, cs.length = acts.length ∧
      w1.backend.undo_stack = cs ++ w.backend.undo_stack ∧
      undoN acts.length w1 = some
        { w with backend := { w.backend with
            redo_stack := cs.reverse ++ w.backend.redo_stack } } := by
  induction acts generalizing w with
  | nil =>
      simp [applyActions] at happ
      subst happ
      refine ⟨[], rfl, by simp, ?_⟩
      simp [undoN]
  | cons a rest ih =>
      cases ha : applyAction w a with
      | none => simp [applyActions, ha] at happ
      | some wa =>
          simp only [applyActions, ha] at happ
          obtain ⟨c, hus, hrs, hfiles, hfolders, hpwd, hcursor, hclnew,
            hflagnew, hndnew, hcu⟩ := applyAction_ok w wa a hflag hnd hcl ha
          obtain ⟨cs, hlen, hstack, hundo⟩ :=
            ih wa hflagnew hndnew (Or.inl hclnew) happ
          refine ⟨cs ++ [c], by simp [hlen], by simp [hstack, hus], ?_⟩
          have hlen2 : (a :: rest).length = rest.length + 1 := rfl
          rw [hlen2, undoN_succ_right, hundo]
          have hstep : undoStep { wa with backend := { wa.backend with
              redo_stack := cs.reverse ++ wa.backend.redo_stack } } = some
              { w with backend := { w.backend with
                  redo_stack := (cs ++ [c]).reverse ++
                    w.backend.redo_stack } } := by
            simp [undoStep, undo, hus, hcu, hflagnew, hcursor, hfiles,
              hfolders, hpwd, hrs, hflag, List.reverse_append]
          simpa using hstep

/-- Claim C5 counterexample: one successful skip from the fresh two-file
session (N = 1 ≤ file count) followed by one `undo` restores the cursor,
the undo stack and the filesystem, but not both stacks: the redo stack now
holds the undone skip, whereas it was empty before the sequence. -/
theorem undo_does_not_restore_redo_stack :
    skip demoW2 = .ok c5afterSkip ∧
    undo c5afterSkip = .ok c5afterUndo ∧
    c5afterUndo.backend.current_file_index =
      demoW2.backend.current_file_index ∧
    c5afterUndo.backend.undo_stack = demoW2.backend.undo_stack ∧
    c5afterUndo.fs = demoW2.fs ∧
    demoW2.backend.redo_stack = [] ∧
    c5afterUndo.backend.redo_stack = [Cmd.skip] ∧
    c5afterUndo.backend.redo_stack ≠ demoW2.backend.redo_stack := by
  refine ⟨?_, ?_, rfl, rfl, ?_, rfl, rfl, ?_⟩ <;> decide

/-- Witness for `unwind_undo`: the single-skip sequence on the fresh
two-file session. -/
theorem unwind_undo_witness :
    ∃ cs : List Cmd, cs.length = [TriageAction.skp].length ∧
      c5afterSkip.backend.undo_stack = cs ++ demoW2.backend.undo_stack ∧
      undoN [TriageAction.skp].length c5afterSkip = some
        { demoW2 with backend := { demoW2.backend with
            redo_stack := cs.reverse ++ demoW2.backend.redo_stack } } :=
  unwind_undo [TriageAction.skp] demoW2 c5afterSkip rfl (by decide)
    (by decide) (by decide)

